import Mathlib

/-!
Shallow embedding of `src/scrape_arxiv.py` (repository gbcolborne/scrape-arxiv).

Modelling conventions:

* Datetimes are modelled as `Int` values counting minutes in the fixed
  service timezone; `minutesPerDay` minutes make one calendar day.  The
  calendar day of a datetime `t` is `t.ediv minutesPerDay` (floor division,
  exactly what `datetime.datetime(sd.year, sd.month, sd.day)` does when
  truncating a datetime to midnight, and what `strftime("%Y-%m-%d")` keys on).
* `strftime("%Y-%m-%d")` renders the calendar day of a datetime; since the
  `YYYY-MM-DD` rendering is injective per calendar day, the dictionary
  `date_to_count` (keyed by day strings in the code) is modelled keyed by the
  day number `Int`, and the rendering of a day is abstracted as the decimal
  rendering of the day number.
* The external collaborator (`arxiv.Search(...).results()`), a lazily
  paginated iterator, is modelled as the `List Result` it would yield, given
  to `main` as an argument; the consumption loop is `consume`.
* Observable behaviour of `main` (network calls, messages printed to stdout,
  the file write) is modelled as a trace, `List Event`, so that statements
  like "aborts before any network call" and "terminates without writing a
  file" are expressible.  A failing `assert` produces the empty trace.
* Python truthiness of optional strings (`if r.comment:`) is `truthy`:
  true exactly for a present, non-empty string.
-/

namespace ScrapeArxiv

/-- `MAX_RESULTS = 300000` (line 10 of the source): API limit. -/
def MAX_RESULTS : Int := 300000

/-- `MAX_PAPERS_PER_DAY = 200` (line 11): max number of results expected per day. -/
def MAX_PAPERS_PER_DAY : Int := 200

/-- Number of time units (minutes) in one calendar day. -/
def minutesPerDay : Int := 1440

/-- Calendar day of a datetime: floor division by `minutesPerDay`
(the day that `strftime("%Y-%m-%d")` renders). -/
def dayOf (t : Int) : Int := t.ediv minutesPerDay

/-- Abstraction of `strftime(DATE_FORMAT)` applied to a datetime: the
`YYYY-MM-DD` rendering is abstracted as the decimal rendering of the day
number (both are injective per calendar day). -/
def dateFmt (t : Int) : String := toString (dayOf t)

/-- A link of an arXiv result (`r.links` elements): `title` is optional. -/
structure Link where
  title : Option String
  href : String
  deriving DecidableEq, Repr

/-- An arXiv result record, as read by `format_result` and `main`.
Author entries are modelled by their `name` string directly. -/
structure Result where
  title : String
  entry_id : String
  published : Int
  updated : Int
  authors : List String
  comment : Option String
  journal_ref : Option String
  doi : Option String
  primary_category : String
  categories : List String
  links : List Link
  summary : String
  deriving DecidableEq, Repr

/-- Python truthiness of an optional string: `if r.comment:` is taken
exactly when the field is present and non-empty. -/
def truthy : Option String → Bool
  | none => false
  | some s => !s.isEmpty

/-- The link filter of line 35: `link.title and link.title != "pdf"`. -/
def keptLink (l : Link) : Bool :=
  match l.title with
  | none => false
  | some t => !t.isEmpty && t != "pdf"

/-- The filtered link list of line 35:
`[link.href for link in r.links if link.title and link.title != "pdf"]`. -/
def keptLinks (r : Result) : List String :=
  (r.links.filter keptLink).map Link.href

/-- `format_result` (lines 13-39): format a result for printing. -/
def format_result (r : Result) : String :=
  let m := "# " ++ r.title
  let m := m ++ ("\n- URL: " ++ r.entry_id)
  let m := m ++ ("\n- Published: " ++ dateFmt r.published)
  let m := if r.updated ≠ r.published
    then m ++ (" (updated " ++ dateFmt r.updated ++ ")") else m
  let m := m ++ ("\n- Authors: " ++ String.intercalate ", " r.authors)
  let m := if truthy r.comment then m ++ ("\n- Comments: " ++ r.comment.getD "") else m
  let m := if truthy r.journal_ref then m ++ ("\n- Journal: " ++ r.journal_ref.getD "") else m
  let m := if truthy r.doi then m ++ ("\n- DOI: " ++ r.doi.getD "") else m
  let m := m ++ ("\n- Primary category: " ++ r.primary_category)
  let m := m ++ ("\n- Categories: " ++ String.intercalate ", " r.categories)
  let m := if (keptLinks r).length ≠ 0
    then m ++ ("\n- Links: " ++ String.intercalate ", " (keptLinks r)) else m
  let m := m ++ ("\n- Abstract: \"" ++ r.summary ++ "\"")
  m

/-- Arguments of `main` after CLI parsing.  `path_output_exists` models the
outcome of `os.path.exists(args.path_output)` at startup. -/
structure Args where
  nb_days : Int
  include_updates : Bool
  categories : List String
  path_output_exists : Bool
  deriving DecidableEq, Repr

/-- The date field the loop reads on line 82:
`d = r.updated if args.include_updates else r.published`. -/
def relevant_date (include_updates : Bool) (r : Result) : Int :=
  if include_updates then r.updated else r.published

/-- `start_date` (lines 59-61): midnight of (`now` minus `nb_days` days);
truncation of a datetime to midnight is floor to a multiple of
`minutesPerDay`. -/
def start_date (now nb_days : Int) : Int :=
  ((now - nb_days * minutesPerDay).ediv minutesPerDay) * minutesPerDay

/-- State of the filter loop of lines 78-88: the retained list `fr`, the
`start_passed` flag, and the `date_to_count` table.  The `defaultdict(int)`
is modelled as a total function with default value `0`, keyed by calendar
day (see the header comment about day-string keys). -/
structure FilterState where
  fr : List Result
  start_passed : Bool
  date_to_count : Int → Nat

/-- The initial state of the filter loop (lines 78-80). -/
def initState : FilterState := ⟨[], false, fun _ => 0⟩

/-- `date_to_count[d] += 1` on a `defaultdict(int)`. -/
def bump (f : Int → Nat) (k : Int) : Int → Nat :=
  fun x => if x = k then f x + 1 else f x

/-- The consumption loop of lines 81-88: walk the result sequence in order;
a record whose relevant date is strictly before `sd` sets `start_passed`
and stops; otherwise the day count is bumped and the record appended. -/
def consume (u : Bool) (sd : Int) : List Result → FilterState → FilterState
  | [], st => st
  | r :: rs, st =>
    if relevant_date u r < sd then
      { st with start_passed := true }
    else
      consume u sd rs
        { st with
          date_to_count := bump st.date_to_count (dayOf (relevant_date u r)),
          fr := st.fr ++ [r] }

/-- The warning of lines 91-97, printed when no papers were retained. -/
def noPapersMsg (args : Args) : String :=
  "WARNING: No papers found in last " ++ toString args.nb_days ++ " days." ++
  " Consider increasing --nb_days" ++
  (if args.include_updates then "" else " or adding the flag --include_updates") ++
  ".\n"

/-- The truncation warning of lines 101-107, printed when the sequence was
exhausted before the start date was passed. -/
def truncationMsg (args : Args) (max_results : Int) : String :=
  "WARNING: max_results (" ++ toString max_results ++
  ") was too low to get all papers for the last " ++ toString args.nb_days ++ " days." ++
  (if max_results < MAX_RESULTS then
    " Consider increasing MAX_PAPERS_PER_DAY (" ++ toString MAX_PAPERS_PER_DAY ++ ")."
  else
    " The API limits the number of results to " ++ toString MAX_RESULTS ++ ".")

/-- One line of the per-day histogram (lines 114-116):
`f.write(f"- {d}: {date_to_count[d]}\n")` for day index `i`. -/
def dayLine (sd : Int) (table : Int → Nat) (i : Nat) : String :=
  let d := dayOf (sd + (i : Int) * minutesPerDay)
  "- " ++ toString d ++ ": " ++ toString (table d) ++ "\n"

/-- The per-day histogram lines, one per `i in range(nb_days)` (line 114). -/
def dayLines (nb_days sd : Int) (table : Int → Nat) : List String :=
  (List.range nb_days.toNat).map (dayLine sd table)

/-- The report document written on lines 110-119: header, one count line per
day of the window, a separator, then one formatted block per retained
record. -/
def reportDoc (args : Args) (sd : Int) (st : FilterState) : String :=
  ("# Distribution of paper count by date of " ++
    (if args.include_updates then "update" else "submission") ++ "\n") ++
  String.join (dayLines args.nb_days sd st.date_to_count) ++
  "\n********************\n\n" ++
  String.join (st.fr.map (fun r => format_result r ++ "\n\n\n"))

/-- Observable events of a run: the timezone-probe network call (line 55),
messages printed to stdout, the main search network call (first pulled on
line 81) with its query string, result cap and sort field, and the file
write (lines 110-119) with the written contents. -/
inductive Event where
  | probeQuery : Event
  | printMsg : String → Event
  | searchQuery : String → Int → Bool → Event
  | fileWrite : String → Event
  deriving DecidableEq, Repr

/-- `main` (lines 41-121), as the trace of its observable events.  The three
asserts of lines 43-45 abort the run (empty trace) before any network
activity.  `now` is the current datetime in the service timezone; `results`
is the (already capped) sequence the collaborator would yield.  The final
info message omits `os.path.abspath` (filesystem paths are not modelled). -/
def main (args : Args) (now : Int) (results : List Result) : List Event :=
  if args.nb_days ≤ 0 then []
  else if 367 ≤ args.nb_days then []
  else if args.path_output_exists then []
  else
    let sd := start_date now args.nb_days
    let query := String.intercalate " OR " (args.categories.map (fun c => "cat:" ++ c))
    let max_results := min (MAX_PAPERS_PER_DAY * args.nb_days) MAX_RESULTS
    let st := consume args.include_updates sd results initState
    [Event.probeQuery,
     Event.printMsg ("\nINFO: getting papers from last " ++ toString args.nb_days ++ " days."),
     Event.searchQuery query max_results args.include_updates] ++
    (if st.fr.length = 0 then
      [Event.printMsg (noPapersMsg args)]
    else
      (if st.start_passed then [] else [Event.printMsg (truncationMsg args max_results)]) ++
      [Event.fileWrite (reportDoc args sd st),
       Event.printMsg ("INFO: Wrote " ++ toString st.fr.length ++ " results.")])

/-! ### Characterization of the consumption loop -/

/-- The Boolean retention condition of the loop: a record is kept exactly
when its relevant date is not strictly before the start date. -/
def kept (u : Bool) (sd : Int) (r : Result) : Bool :=
  decide (sd ≤ relevant_date u r)

theorem consume_fr (u : Bool) (sd : Int) (rs : List Result) (st : FilterState) :
    (consume u sd rs st).fr = st.fr ++ rs.takeWhile (kept u sd) := by
  induction rs generalizing st with
  | nil => simp [consume]
  | cons r rs ih =>
    by_cases h : relevant_date u r < sd
    · simp [consume, h, kept, List.takeWhile_cons, not_le.mpr h]
    · simp [consume, h, kept, List.takeWhile_cons, not_lt.mp h, ih]

theorem consume_start_passed (u : Bool) (sd : Int) (rs : List Result) (st : FilterState) :
    (consume u sd rs st).start_passed =
      (st.start_passed || rs.any (fun r => decide (relevant_date u r < sd))) := by
  induction rs generalizing st with
  | nil => simp [consume]
  | cons r rs ih =>
    by_cases h : relevant_date u r < sd
    · simp [consume, h]
    · simp [consume, h, ih]

theorem consume_table (u : Bool) (sd : Int) (rs : List Result) (st : FilterState) (k : Int) :
    (consume u sd rs st).date_to_count k =
      st.date_to_count k +
        (rs.takeWhile (kept u sd)).countP
          (fun r => decide (dayOf (relevant_date u r) = k)) := by
  induction rs generalizing st with
  | nil => simp [consume]
  | cons r rs ih =>
    by_cases h : relevant_date u r < sd
    · simp [consume, h, kept, List.takeWhile_cons, not_le.mpr h]
    · rw [consume, if_neg h, ih]
      simp only [kept, List.takeWhile_cons, decide_eq_true_eq, not_lt.mp h, if_pos,
        List.countP_cons, bump]
      by_cases hk : dayOf (relevant_date u r) = k <;> simp [hk] <;> omega

/-! ### Arithmetic helpers for the day histogram -/

theorem sum_map_add {α : Type} (l : List α) (f g : α → Nat) :
    (l.map (fun x => f x + g x)).sum = (l.map f).sum + (l.map g).sum := by
  induction l with
  | nil => simp
  | cons a l ih => simp [ih]; omega

theorem sum_indicator_zero (n : Nat) (d0 d : Int) (h : d < d0 ∨ d0 + n ≤ d) :
    ((List.range n).map (fun (i : Nat) => if d = d0 + (i : Int) then 1 else 0)).sum = 0 := by
  induction n with
  | zero => simp
  | succ n ih =>
    rw [List.range_succ, List.map_append, List.sum_append]
    have h1 : d < d0 ∨ d0 + n ≤ d := by
      rcases h with h | h
      · exact Or.inl h
      · right; push_cast at h ⊢; omega
    have h2 : d ≠ d0 + (n : Int) := by
      rcases h with h | h
      · omega
      · push_cast at h; omega
    simp [ih h1, h2]

theorem sum_indicator_one (n : Nat) (d0 d : Int) (h1 : d0 ≤ d) (h2 : d < d0 + n) :
    ((List.range n).map (fun (i : Nat) => if d = d0 + (i : Int) then 1 else 0)).sum = 1 := by
  induction n with
  | zero => simp at h2; omega
  | succ n ih =>
    rw [List.range_succ, List.map_append, List.sum_append]
    by_cases hd : d = d0 + (n : Int)
    · rw [sum_indicator_zero n d0 d (Or.inr (le_of_eq hd.symm))]
      simp [hd]
    · have h2' : d < d0 + (n : Int) := by push_cast at h2; omega
      simp [ih h2', hd]

/-- Each record whose relevant day lies in the window `[d0, d0 + n)`
contributes to exactly one day bucket: the per-day counts over the window
sum to the record count. -/
theorem countP_window_sum (n : Nat) (d0 : Int) (u : Bool) (rs : List Result)
    (h : ∀ r ∈ rs, d0 ≤ dayOf (relevant_date u r) ∧ dayOf (relevant_date u r) < d0 + n) :
    ((List.range n).map
      (fun (i : Nat) => rs.countP (fun r => decide (dayOf (relevant_date u r) = d0 + (i : Int))))).sum
      = rs.length := by
  induction rs with
  | nil => simp
  | cons r rs ih =>
    have hr := h r (List.mem_cons_self r rs)
    have hrest := ih (fun x hx => h x (List.mem_cons_of_mem r hx))
    simp only [List.countP_cons]
    have hsplit := sum_map_add (List.range n)
      (fun (i : Nat) => rs.countP (fun r => decide (dayOf (relevant_date u r) = d0 + (i : Int))))
      (fun i => if dayOf (relevant_date u r) = d0 + (i : Int) then 1 else 0)
    simp only [decide_eq_true_eq] at hsplit ⊢
    rw [hsplit, hrest, sum_indicator_one n d0 _ hr.1 hr.2]
    simp

/-- The calendar day of `sd + i` days is `i` days after the calendar day
of `sd`. -/
theorem dayOf_add_mul (sd : Int) (i : Nat) :
    dayOf (sd + (i : Int) * minutesPerDay) = dayOf sd + i := by
  unfold dayOf minutesPerDay
  exact Int.add_mul_ediv_right sd i (by norm_num)

/-- Bounds on a datetime within a window of whole days translate to bounds
on its calendar day, when the window start is a midnight. -/
theorem dayOf_window (sd t : Int) (n : Nat) (hsd : minutesPerDay ∣ sd)
    (h1 : sd ≤ t) (h2 : t < sd + n * minutesPerDay) :
    dayOf sd ≤ dayOf t ∧ dayOf t < dayOf sd + n := by
  obtain ⟨q, hq⟩ := hsd
  have hq' : dayOf sd = q := by
    subst hq; unfold dayOf minutesPerDay
    rw [mul_comm]; exact Int.mul_ediv_cancel q (by norm_num)
  have ht := Int.ediv_add_emod t minutesPerDay
  have hm1 : 0 ≤ t % minutesPerDay := Int.emod_nonneg t (by norm_num [minutesPerDay])
  have hm2 : t % minutesPerDay < minutesPerDay := Int.emod_lt_of_pos t (by norm_num [minutesPerDay])
  have : dayOf t = t / minutesPerDay := rfl
  unfold minutesPerDay at *
  subst hq
  constructor <;> omega

/-- `takeWhile` over a list whose front elements all satisfy `p` and whose
next element fails `p` returns exactly the front. -/
theorem takeWhile_front {α : Type} (p : α → Bool) (l1 : List α) (a : α) (l2 : List α)
    (h1 : ∀ x ∈ l1, p x = true) (h2 : p a = false) :
    (l1 ++ a :: l2).takeWhile p = l1 := by
  induction l1 with
  | nil => simp [List.takeWhile_cons, h2]
  | cons b l ih =>
    have hb := h1 b (List.mem_cons_self b l)
    simp only [List.cons_append, List.takeWhile_cons, hb, if_true]
    rw [ih (fun x hx => h1 x (List.mem_cons_of_mem b hx))]

/-!
### C1 — the consumption loop stops at the first record past the window,
with an inclusive lower bound
-/

/-- C1: for every record sequence whose front records all have a relevant
date at or after `start_date` (equality included: inclusive lower bound)
followed by a first record whose relevant date is strictly earlier than
`start_date`, the loop retains exactly the front, in order, and marks the
window fully covered (`start_passed = true`). -/
theorem consume_retains_until_first_old (u : Bool) (sd : Int)
    (front : List Result) (r0 : Result) (rest : List Result)
    (hfront : ∀ r ∈ front, sd ≤ relevant_date u r)
    (h0 : relevant_date u r0 < sd) :
    (consume u sd (front ++ r0 :: rest) initState).fr = front ∧
    (consume u sd (front ++ r0 :: rest) initState).start_passed = true := by
  constructor
  · rw [consume_fr]
    rw [takeWhile_front (kept u sd) front r0 rest
      (fun x hx => by simp [kept, hfront x hx])
      (by simp [kept, not_le.mpr h0])]
    simp [initState]
  · rw [consume_start_passed]
    simp only [initState, Bool.false_or]
    rw [List.any_eq_true]
    exact ⟨r0, by simp, by simp [h0]⟩

/-- C1 witness: a three-record descending sequence whose second record sits
exactly on `start_date` (it is retained: inclusive bound) and whose third
record is one minute earlier (it stops the loop). -/
theorem consume_retains_until_first_old_witness :
    (∀ r ∈ [Result.mk "A" "idA" 20000 20000 ["x"] none none none "cs.CL" ["cs.CL"] [] "a",
            Result.mk "B" "idB" 14400 14400 ["y"] none none none "cs.CL" ["cs.CL"] [] "b"],
        (14400 : Int) ≤ relevant_date false r) ∧
    relevant_date false (Result.mk "C" "idC" 14399 14399 ["z"] none none none "cs.CL" ["cs.CL"] [] "c") < 14400 ∧
    (consume false 14400
      ([Result.mk "A" "idA" 20000 20000 ["x"] none none none "cs.CL" ["cs.CL"] [] "a",
        Result.mk "B" "idB" 14400 14400 ["y"] none none none "cs.CL" ["cs.CL"] [] "b"] ++
       Result.mk "C" "idC" 14399 14399 ["z"] none none none "cs.CL" ["cs.CL"] [] "c" :: [])
      initState).fr =
      [Result.mk "A" "idA" 20000 20000 ["x"] none none none "cs.CL" ["cs.CL"] [] "a",
       Result.mk "B" "idB" 14400 14400 ["y"] none none none "cs.CL" ["cs.CL"] [] "b"] ∧
    (consume false 14400
      ([Result.mk "A" "idA" 20000 20000 ["x"] none none none "cs.CL" ["cs.CL"] [] "a",
        Result.mk "B" "idB" 14400 14400 ["y"] none none none "cs.CL" ["cs.CL"] [] "b"] ++
       Result.mk "C" "idC" 14399 14399 ["z"] none none none "cs.CL" ["cs.CL"] [] "c" :: [])
      initState).start_passed = true := by
  refine ⟨by decide, by decide, ?_⟩
  exact consume_retains_until_first_old false 14400 _ _ [] (by decide) (by decide)

/-!
### C5 — precondition failures abort before any network call or file write
-/

/-- C5: for every `nb_days` outside the open interval `(0, 367)`, and for
every run whose output path already exists, the run produces no observable
event at all: in particular no network call and no file write, for every
environment (`now`, collaborator results). -/
theorem main_aborts_on_precondition (args : Args) (now : Int) (results : List Result)
    (h : args.nb_days ≤ 0 ∨ 367 ≤ args.nb_days ∨ args.path_output_exists = true) :
    main args now results = [] := by
  by_cases h0 : args.nb_days ≤ 0
  · simp [main, h0]
  · by_cases h1 : (367 : Int) ≤ args.nb_days
    · simp [main, h0, h1]
    · have h2 : args.path_output_exists = true := by tauto
      simp [main, h0, h1, h2]

/-- C5 witness: three concrete aborting runs (`nb_days = 0`, `nb_days = 367`,
pre-existing output path), each with a nonempty collaborator stream. -/
theorem main_aborts_on_precondition_witness :
    ((0 : Int) ≤ 0 ∨ (367 : Int) ≤ 0 ∨ (false = true)) ∧
    main ⟨0, false, ["cs.CL"], false⟩ 100000
      [Result.mk "A" "idA" 99999 99999 ["x"] none none none "cs.CL" ["cs.CL"] [] "a"] = [] ∧
    main ⟨367, false, ["cs.CL"], false⟩ 100000000
      [Result.mk "A" "idA" 99999 99999 ["x"] none none none "cs.CL" ["cs.CL"] [] "a"] = [] ∧
    main ⟨7, true, ["cs.CL"], true⟩ 100000
      [Result.mk "A" "idA" 99999 99999 ["x"] none none none "cs.CL" ["cs.CL"] [] "a"] = [] := by
  refine ⟨by decide, ?_, ?_, ?_⟩
  · exact main_aborts_on_precondition _ _ _ (by decide)
  · exact main_aborts_on_precondition _ _ _ (by decide)
  · exact main_aborts_on_precondition _ _ _ (by decide)

/-!
### C6 — the requested result cap
-/

/-- C6: for every valid `nb_days` (and output path not pre-existing), the
result cap passed to the collaborator search is
`min (200 * nb_days) 300000`, the two numbers being the fixed constants
`MAX_PAPERS_PER_DAY` and `MAX_RESULTS`. -/
theorem main_requests_min_cap (args : Args) (now : Int) (results : List Result)
    (h1 : 0 < args.nb_days) (h2 : args.nb_days < 367)
    (h3 : args.path_output_exists = false) :
    ∃ q tail, main args now results =
      Event.probeQuery ::
      Event.printMsg ("\nINFO: getting papers from last " ++ toString args.nb_days ++ " days.") ::
      Event.searchQuery q (min (200 * args.nb_days) 300000) args.include_updates :: tail := by
  unfold main
  rw [if_neg (by omega), if_neg (by omega), if_neg (by simp [h3])]
  exact ⟨_, _, rfl⟩

/-- C6 witness: at `nb_days = 7` the requested cap is `min 1400 300000`. -/
theorem main_requests_min_cap_witness :
    (0 : Int) < 7 ∧ (7 : Int) < 367 ∧
    (∃ q tail, main ⟨7, false, ["cs.CL"], false⟩ 100000
        [Result.mk "A" "idA" 99999 99999 ["x"] none none none "cs.CL" ["cs.CL"] [] "a"] =
      Event.probeQuery ::
      Event.printMsg ("\nINFO: getting papers from last " ++ toString (7 : Int) ++ " days.") ::
      Event.searchQuery q (min (200 * 7) 300000) false :: tail) :=
  ⟨by decide, by decide,
    main_requests_min_cap ⟨7, false, ["cs.CL"], false⟩ 100000 _ (by decide) (by decide) rfl⟩

/-!
### C9 — an empty category list is not rejected; its query string is empty
-/

/-- C9: the only precondition checks are on `nb_days` and on the output
path: a run with an empty category list (and those checks passing) proceeds
to the network, and the query it sends to the collaborator is the OR-join
of zero terms, the empty string. -/
theorem main_empty_categories_not_rejected (nb_days : Int) (u : Bool) (now : Int)
    (results : List Result) (h1 : 0 < nb_days) (h2 : nb_days < 367) :
    ∃ tail, main ⟨nb_days, u, [], false⟩ now results =
      Event.probeQuery ::
      Event.printMsg ("\nINFO: getting papers from last " ++ toString nb_days ++ " days.") ::
      Event.searchQuery "" (min (MAX_PAPERS_PER_DAY * nb_days) MAX_RESULTS) u :: tail := by
  unfold main
  rw [if_neg (by simpa using (by omega : ¬ nb_days ≤ 0)),
      if_neg (by simpa using (by omega : ¬ (367 : Int) ≤ nb_days)),
      if_neg (by simp)]
  exact ⟨_, rfl⟩

/-- C9 witness: a concrete run with no categories reaches the search with
the empty query string. -/
theorem main_empty_categories_not_rejected_witness :
    (0 : Int) < 7 ∧ (7 : Int) < 367 ∧
    (∃ tail, main ⟨7, true, [], false⟩ 100000
        [Result.mk "A" "idA" 99999 99999 ["x"] none none none "cs.CL" ["cs.CL"] [] "a"] =
      Event.probeQuery ::
      Event.printMsg ("\nINFO: getting papers from last " ++ toString (7 : Int) ++ " days.") ::
      Event.searchQuery "" (min (MAX_PAPERS_PER_DAY * 7) MAX_RESULTS) true :: tail) :=
  ⟨by decide, by decide,
    main_empty_categories_not_rejected 7 true 100000 _ (by decide) (by decide)⟩

/-!
### C3 — empty-result policy: warning, no file written
-/

/-- C3: for every valid run in which no records are retained, the program
prints exactly the warning suggesting a larger window — with the
update-inclusion suggestion exactly when `include_updates` was off — and
terminates without writing any file (no `fileWrite` event occurs). -/
theorem main_no_papers_warns_without_file (args : Args) (now : Int) (results : List Result)
    (h1 : 0 < args.nb_days) (h2 : args.nb_days < 367)
    (h3 : args.path_output_exists = false)
    (h4 : (consume args.include_updates (start_date now args.nb_days) results initState).fr = []) :
    main args now results =
      [Event.probeQuery,
       Event.printMsg ("\nINFO: getting papers from last " ++ toString args.nb_days ++ " days."),
       Event.searchQuery
         (String.intercalate " OR " (args.categories.map (fun c => "cat:" ++ c)))
         (min (200 * args.nb_days) 300000) args.include_updates,
       Event.printMsg
         ("WARNING: No papers found in last " ++ toString args.nb_days ++
          " days. Consider increasing --nb_days" ++
          (if args.include_updates then "" else " or adding the flag --include_updates") ++
          ".\n")] ∧
    ∀ c, Event.fileWrite c ∉ main args now results := by
  have h0' : ¬ args.nb_days ≤ 0 := by omega
  have h1' : ¬ (367 : Int) ≤ args.nb_days := by omega
  have hmsg : noPapersMsg args =
      "WARNING: No papers found in last " ++ toString args.nb_days ++
        " days. Consider increasing --nb_days" ++
        (if args.include_updates then "" else " or adding the flag --include_updates") ++
        ".\n" := by
    unfold noPapersMsg
    rw [String.append_assoc _ " days." " Consider increasing --nb_days"]
    have hlit : (" days." : String) ++ " Consider increasing --nb_days" =
        " days. Consider increasing --nb_days" := rfl
    rw [hlit]
  have heq : main args now results =
      [Event.probeQuery,
       Event.printMsg ("\nINFO: getting papers from last " ++ toString args.nb_days ++ " days."),
       Event.searchQuery
         (String.intercalate " OR " (args.categories.map (fun c => "cat:" ++ c)))
         (min (200 * args.nb_days) 300000) args.include_updates,
       Event.printMsg
         ("WARNING: No papers found in last " ++ toString args.nb_days ++
          " days. Consider increasing --nb_days" ++
          (if args.include_updates then "" else " or adding the flag --include_updates") ++
          ".\n")] := by
    simp only [main, h0', h1', h3, if_false, Bool.false_eq_true, h4, List.length_nil,
      if_true, ite_false, ite_true, MAX_PAPERS_PER_DAY, MAX_RESULTS, hmsg,
      List.append_assoc, List.singleton_append, List.cons_append, List.nil_append]
  refine ⟨heq, fun c hc => ?_⟩
  rw [heq] at hc
  simp at hc

/-- C3 witness: a collaborator whose first record is already older than
`start_date` retains nothing; the warning (with the `--include_updates`
suggestion, since updates were off) fires and no file is written. -/
theorem main_no_papers_warns_without_file_witness :
    (0 : Int) < 2 ∧ (2 : Int) < 367 ∧
    (consume false (start_date 100000 2)
      [Result.mk "A" "idA" 10000 10000 ["x"] none none none "cs.CL" ["cs.CL"] [] "a"]
      initState).fr = [] ∧
    (main ⟨2, false, ["cs.CL"], false⟩ 100000
        [Result.mk "A" "idA" 10000 10000 ["x"] none none none "cs.CL" ["cs.CL"] [] "a"] =
      [Event.probeQuery,
       Event.printMsg ("\nINFO: getting papers from last " ++ toString (2 : Int) ++ " days."),
       Event.searchQuery
         (String.intercalate " OR " (["cs.CL"].map (fun c => "cat:" ++ c)))
         (min (200 * 2) 300000) false,
       Event.printMsg
         ("WARNING: No papers found in last " ++ toString (2 : Int) ++
          " days. Consider increasing --nb_days" ++
          (if false then "" else " or adding the flag --include_updates") ++
          ".\n")] ∧
     ∀ c, Event.fileWrite c ∉ main ⟨2, false, ["cs.CL"], false⟩ 100000
        [Result.mk "A" "idA" 10000 10000 ["x"] none none none "cs.CL" ["cs.CL"] [] "a"]) :=
  ⟨by decide, by decide, by decide,
    main_no_papers_warns_without_file ⟨2, false, ["cs.CL"], false⟩ 100000 _
      (by decide) (by decide) rfl (by decide)⟩

/-- Shared shape of a valid run whose stream is exhausted with every record
at or after `start_date`: all records are retained, `start_passed` stays
false, and the trace is the info message, the search, the truncation
warning, the file write and the final info message. -/
theorem main_exhausted_events (args : Args) (now : Int) (results : List Result)
    (h1 : 0 < args.nb_days) (h2 : args.nb_days < 367)
    (h3 : args.path_output_exists = false) (hne : results ≠ [])
    (hall : ∀ r ∈ results,
      start_date now args.nb_days ≤ relevant_date args.include_updates r) :
    main args now results =
      [Event.probeQuery,
       Event.printMsg ("\nINFO: getting papers from last " ++ toString args.nb_days ++ " days."),
       Event.searchQuery
         (String.intercalate " OR " (args.categories.map (fun c => "cat:" ++ c)))
         (min (MAX_PAPERS_PER_DAY * args.nb_days) MAX_RESULTS) args.include_updates,
       Event.printMsg
         (truncationMsg args (min (MAX_PAPERS_PER_DAY * args.nb_days) MAX_RESULTS)),
       Event.fileWrite
         (reportDoc args (start_date now args.nb_days)
           (consume args.include_updates (start_date now args.nb_days) results initState)),
       Event.printMsg ("INFO: Wrote " ++ toString results.length ++ " results.")] := by
  have h0' : ¬ args.nb_days ≤ 0 := by omega
  have h1' : ¬ (367 : Int) ≤ args.nb_days := by omega
  have hfr : (consume args.include_updates (start_date now args.nb_days) results initState).fr
      = results := by
    rw [consume_fr]
    simp only [initState, List.nil_append]
    rw [List.takeWhile_eq_self_iff.mpr]
    intro x hx
    simp [kept, hall x hx]
  have hsp : (consume args.include_updates (start_date now args.nb_days) results
      initState).start_passed = false := by
    rw [consume_start_passed]
    simp only [initState, Bool.false_or]
    rw [List.any_eq_false]
    intro x hx
    simp [not_lt.mpr (hall x hx)]
  have hlen : ¬ ((consume args.include_updates (start_date now args.nb_days) results
      initState).fr.length = 0) := by
    rw [hfr]
    simpa [List.length_eq_zero] using hne
  simp only [main, h0', h1', h3, if_false, Bool.false_eq_true, hlen, hsp, hfr,
    List.length_eq_zero, hne, ite_false, ite_true,
    List.append_assoc, List.singleton_append, List.cons_append, List.nil_append]

/-!
### C4 — truncation policy: warning naming the binding cap, file still written
-/

/-- C4: for every valid run that retains at least one record but exhausts
the collaborator sequence without meeting a record older than `start_date`,
the program prints the truncation warning — naming the per-day policy
constant when the requested cap is below the service ceiling, and the
service ceiling otherwise — and still writes the (partial) report file. -/
theorem main_truncation_warns_and_writes (args : Args) (now : Int) (results : List Result)
    (h1 : 0 < args.nb_days) (h2 : args.nb_days < 367)
    (h3 : args.path_output_exists = false) (hne : results ≠ [])
    (hall : ∀ r ∈ results,
      start_date now args.nb_days ≤ relevant_date args.include_updates r) :
    main args now results =
      [Event.probeQuery,
       Event.printMsg ("\nINFO: getting papers from last " ++ toString args.nb_days ++ " days."),
       Event.searchQuery
         (String.intercalate " OR " (args.categories.map (fun c => "cat:" ++ c)))
         (min (200 * args.nb_days) 300000) args.include_updates,
       Event.printMsg
         ("WARNING: max_results (" ++ toString (min (200 * args.nb_days) 300000) ++
          ") was too low to get all papers for the last " ++ toString args.nb_days ++ " days." ++
          (if min (200 * args.nb_days) 300000 < 300000 then
            " Consider increasing MAX_PAPERS_PER_DAY (" ++ toString (200 : Int) ++ ")."
          else
            " The API limits the number of results to " ++ toString (300000 : Int) ++ ".")),
       Event.fileWrite
         (reportDoc args (start_date now args.nb_days)
           (consume args.include_updates (start_date now args.nb_days) results initState)),
       Event.printMsg ("INFO: Wrote " ++ toString results.length ++ " results.")] ∧
    Event.fileWrite
      (reportDoc args (start_date now args.nb_days)
        (consume args.include_updates (start_date now args.nb_days) results initState))
      ∈ main args now results := by
  have heq0 := main_exhausted_events args now results h1 h2 h3 hne hall
  have heq : main args now results =
      [Event.probeQuery,
       Event.printMsg ("\nINFO: getting papers from last " ++ toString args.nb_days ++ " days."),
       Event.searchQuery
         (String.intercalate " OR " (args.categories.map (fun c => "cat:" ++ c)))
         (min (200 * args.nb_days) 300000) args.include_updates,
       Event.printMsg
         ("WARNING: max_results (" ++ toString (min (200 * args.nb_days) 300000) ++
          ") was too low to get all papers for the last " ++ toString args.nb_days ++ " days." ++
          (if min (200 * args.nb_days) 300000 < 300000 then
            " Consider increasing MAX_PAPERS_PER_DAY (" ++ toString (200 : Int) ++ ")."
          else
            " The API limits the number of results to " ++ toString (300000 : Int) ++ ".")),
       Event.fileWrite
         (reportDoc args (start_date now args.nb_days)
           (consume args.include_updates (start_date now args.nb_days) results initState)),
       Event.printMsg ("INFO: Wrote " ++ toString results.length ++ " results.")] := by
    rw [heq0]
    simp only [truncationMsg, MAX_PAPERS_PER_DAY, MAX_RESULTS]
  refine ⟨heq, ?_⟩
  rw [heq]
  simp

/-- C4 witness: two in-window records exhaust the capped stream without
reaching `start_date`; the truncation warning names `MAX_PAPERS_PER_DAY`
(the requested cap `400` is below the ceiling `300000`) and the partial
report is written. -/
theorem main_truncation_warns_and_writes_witness :
    (0 : Int) < 2 ∧ (2 : Int) < 367 ∧
    ([Result.mk "A" "idA" 99000 99000 ["x"] none none none "cs.CL" ["cs.CL"] [] "a",
      Result.mk "B" "idB" 98000 98000 ["y"] none none none "cs.CL" ["cs.CL"] [] "b"] ≠
        ([] : List Result)) ∧
    (∀ r ∈ [Result.mk "A" "idA" 99000 99000 ["x"] none none none "cs.CL" ["cs.CL"] [] "a",
            Result.mk "B" "idB" 98000 98000 ["y"] none none none "cs.CL" ["cs.CL"] [] "b"],
      start_date 100000 2 ≤ relevant_date false r) ∧
    main ⟨2, false, ["cs.CL"], false⟩ 100000
        [Result.mk "A" "idA" 99000 99000 ["x"] none none none "cs.CL" ["cs.CL"] [] "a",
         Result.mk "B" "idB" 98000 98000 ["y"] none none none "cs.CL" ["cs.CL"] [] "b"] =
      [Event.probeQuery,
       Event.printMsg ("\nINFO: getting papers from last " ++ toString (2 : Int) ++ " days."),
       Event.searchQuery
         (String.intercalate " OR " (["cs.CL"].map (fun c => "cat:" ++ c)))
         (min (200 * 2) 300000) false,
       Event.printMsg
         ("WARNING: max_results (" ++ toString (min (200 * (2 : Int)) 300000) ++
          ") was too low to get all papers for the last " ++ toString (2 : Int) ++ " days." ++
          (if min (200 * (2 : Int)) 300000 < 300000 then
            " Consider increasing MAX_PAPERS_PER_DAY (" ++ toString (200 : Int) ++ ")."
          else
            " The API limits the number of results to " ++ toString (300000 : Int) ++ ".")),
       Event.fileWrite
         (reportDoc ⟨2, false, ["cs.CL"], false⟩ (start_date 100000 2)
           (consume false (start_date 100000 2)
             [Result.mk "A" "idA" 99000 99000 ["x"] none none none "cs.CL" ["cs.CL"] [] "a",
              Result.mk "B" "idB" 98000 98000 ["y"] none none none "cs.CL" ["cs.CL"] [] "b"]
             initState)),
       Event.printMsg ("INFO: Wrote " ++
         toString ([Result.mk "A" "idA" 99000 99000 ["x"] none none none "cs.CL" ["cs.CL"] [] "a",
                    Result.mk "B" "idB" 98000 98000 ["y"] none none none "cs.CL" ["cs.CL"] [] "b"] :
            List Result).length ++ " results.")] :=
  ⟨by decide, by decide, by decide, by decide,
    (main_truncation_warns_and_writes ⟨2, false, ["cs.CL"], false⟩ 100000 _
      (by decide) (by decide) rfl (by decide) (by decide)).1⟩

/-!
### Spec-template pieces of the formatted block
-/

/-- The text of a formatted block between `"\n- Authors: "` and the end:
author names, then each optional line as a conditional residue, the two
category lines, the conditional Links line, and the quoted abstract. -/
def authorsTail (r : Result) : String :=
  String.intercalate ", " r.authors ++
  (if truthy r.comment then "\n- Comments: " ++ r.comment.getD "" else "") ++
  (if truthy r.journal_ref then "\n- Journal: " ++ r.journal_ref.getD "" else "") ++
  (if truthy r.doi then "\n- DOI: " ++ r.doi.getD "" else "") ++
  "\n- Primary category: " ++ r.primary_category ++
  "\n- Categories: " ++ String.intercalate ", " r.categories ++
  (if (keptLinks r).length = 0 then ""
    else "\n- Links: " ++ String.intercalate ", " (keptLinks r)) ++
  "\n- Abstract: \"" ++ r.summary ++ "\""

/-- The text of a formatted block before the Links line (everything from
the title line through the Categories line). -/
def linksFront (r : Result) : String :=
  "# " ++ r.title ++ "\n- URL: " ++ r.entry_id ++
  "\n- Published: " ++ dateFmt r.published ++
  (if r.updated = r.published then "" else " (updated " ++ dateFmt r.updated ++ ")") ++
  "\n- Authors: " ++ String.intercalate ", " r.authors ++
  (if truthy r.comment then "\n- Comments: " ++ r.comment.getD "" else "") ++
  (if truthy r.journal_ref then "\n- Journal: " ++ r.journal_ref.getD "" else "") ++
  (if truthy r.doi then "\n- DOI: " ++ r.doi.getD "" else "") ++
  "\n- Primary category: " ++ r.primary_category ++
  "\n- Categories: " ++ String.intercalate ", " r.categories

/-- The text of a formatted block before the Abstract line. -/
def beforeAbstract (r : Result) : String :=
  linksFront r ++
  (if (keptLinks r).length = 0 then ""
    else "\n- Links: " ++ String.intercalate ", " (keptLinks r))

/-!
### C7 — the "(updated ...)" clause is rendered exactly when the dates differ
-/

/-- C7: the formatted block renders `"(updated <date>)"` between the
publish date and the author line exactly when the update date differs from
the publish date, using the exact value of each date field (and nothing is
rendered there when they are equal). -/
theorem format_result_updated_clause (r : Result) :
    ∃ rest : String,
      format_result r =
        "# " ++ r.title ++ "\n- URL: " ++ r.entry_id ++
          "\n- Published: " ++ dateFmt r.published ++
          (if r.updated = r.published then ""
            else " (updated " ++ dateFmt r.updated ++ ")") ++
          "\n- Authors: " ++ rest := by
  refine ⟨authorsTail r, ?_⟩
  by_cases h1 : r.updated = r.published <;>
    by_cases h2 : truthy r.comment <;>
      by_cases h3 : truthy r.journal_ref <;>
        by_cases h4 : truthy r.doi <;>
          by_cases h5 : (keptLinks r).length = 0 <;>
            simp only [format_result, authorsTail, ne_eq, h1, h2, h3, h4, h5,
              eq_self_iff_true, not_false_eq_true, not_true_eq_false,
              Bool.false_eq_true, Bool.true_eq_false,
              if_true, if_false, ite_true, ite_false,
              String.append_assoc, String.append_empty, String.empty_append]

/-!
### C8 — absent optional fields leave no residual lines; only non-"pdf"
titled links are listed
-/

/-- C8: a record with no comment, no journal reference, no DOI and no kept
(titled, non-"pdf") links renders with all four corresponding lines omitted
entirely; and whenever kept links exist, the Links line lists exactly the
hrefs of the titled links whose title differs from "pdf". -/
theorem format_result_omits_empty_optionals (r : Result)
    (hc : truthy r.comment = false) (hj : truthy r.journal_ref = false)
    (hd : truthy r.doi = false) (hl : keptLinks r = []) :
    (format_result r =
      "# " ++ r.title ++ "\n- URL: " ++ r.entry_id ++
        "\n- Published: " ++ dateFmt r.published ++
        (if r.updated = r.published then ""
          else " (updated " ++ dateFmt r.updated ++ ")") ++
        "\n- Authors: " ++ String.intercalate ", " r.authors ++
        "\n- Primary category: " ++ r.primary_category ++
        "\n- Categories: " ++ String.intercalate ", " r.categories ++
        "\n- Abstract: \"" ++ r.summary ++ "\"") ∧
    ∀ s : Result, keptLinks s ≠ [] →
      ∃ front : String, format_result s =
        front ++ "\n- Links: " ++
          String.intercalate ", " ((s.links.filter keptLink).map Link.href) ++
          "\n- Abstract: \"" ++ s.summary ++ "\"" := by
  constructor
  · by_cases h1 : r.updated = r.published <;>
      simp only [format_result, ne_eq, hc, hj, hd, hl, h1, List.length_nil,
        eq_self_iff_true, not_false_eq_true, not_true_eq_false, Bool.false_eq_true,
        if_true, if_false, ite_true, ite_false,
        String.append_assoc, String.append_empty, String.empty_append]
  · intro s hs
    have hlen : ¬ ((keptLinks s).length = 0) := by
      simpa [List.length_eq_zero] using hs
    simp only [keptLinks] at hlen
    refine ⟨linksFront s, ?_⟩
    by_cases h1 : s.updated = s.published <;>
      by_cases h2 : truthy s.comment <;>
        by_cases h3 : truthy s.journal_ref <;>
          by_cases h4 : truthy s.doi <;>
            simp only [format_result, linksFront, keptLinks, ne_eq, hlen,
              h1, h2, h3, h4,
              eq_self_iff_true, not_false_eq_true, not_true_eq_false,
              Bool.false_eq_true, Bool.true_eq_false,
              if_true, if_false, ite_true, ite_false,
              String.append_assoc, String.append_empty, String.empty_append]

/-- C8 witness: a record with none of the optional fields and a single
untitled link renders as the bare template, with no Comments, Journal,
DOI or Links line. -/
theorem format_result_omits_empty_optionals_witness :
    truthy (Result.mk "T" "idT" 20000 20000 ["x"] none none none "cs.CL" ["cs.CL"]
      [Link.mk none "http:a"] "abs").comment = false ∧
    truthy (Result.mk "T" "idT" 20000 20000 ["x"] none none none "cs.CL" ["cs.CL"]
      [Link.mk none "http:a"] "abs").journal_ref = false ∧
    truthy (Result.mk "T" "idT" 20000 20000 ["x"] none none none "cs.CL" ["cs.CL"]
      [Link.mk none "http:a"] "abs").doi = false ∧
    keptLinks (Result.mk "T" "idT" 20000 20000 ["x"] none none none "cs.CL" ["cs.CL"]
      [Link.mk none "http:a"] "abs") = [] ∧
    format_result (Result.mk "T" "idT" 20000 20000 ["x"] none none none "cs.CL" ["cs.CL"]
      [Link.mk none "http:a"] "abs") =
      "# T\n- URL: idT\n- Published: 13\n- Authors: x\n- Primary category: cs.CL" ++
      "\n- Categories: cs.CL\n- Abstract: \"abs\"" := by
  refine ⟨by decide, by decide, by decide, by decide, ?_⟩
  have h := (format_result_omits_empty_optionals
    (Result.mk "T" "idT" 20000 20000 ["x"] none none none "cs.CL" ["cs.CL"]
      [Link.mk none "http:a"] "abs") rfl rfl rfl rfl).1
  rw [h]
  decide

/-!
### C10 — the abstract is embedded verbatim at the end of the block
-/

/-- C10: for every record, the formatted block is a record-determined text
followed by `- Abstract: "` and the abstract embedded verbatim with a
closing quote: the same head string works for every abstract value,
including ones holding quotes or newlines, so no escaping or
transformation is applied to the abstract. -/
theorem format_result_abstract_verbatim (r : Result) :
    ∃ front : String, ∀ s : String,
      format_result { r with summary := s } =
        front ++ "\n- Abstract: \"" ++ s ++ "\"" := by
  refine ⟨beforeAbstract r, fun s => ?_⟩
  by_cases h1 : r.updated = r.published <;>
    by_cases h2 : truthy r.comment <;>
      by_cases h3 : truthy r.journal_ref <;>
        by_cases h4 : truthy r.doi <;>
          by_cases h5 : (List.map Link.href (List.filter keptLink r.links)).length = 0 <;>
            simp only [format_result, beforeAbstract, linksFront, keptLinks, ne_eq,
              h1, h2, h3, h4, h5,
              eq_self_iff_true, not_false_eq_true, not_true_eq_false,
              Bool.false_eq_true, Bool.true_eq_false,
              if_true, if_false, ite_true, ite_false,
              String.append_assoc, String.append_empty, String.empty_append]


/-!
### C2 — full-window runs: complete, chronological, zero-filled histogram
-/

/-- C2: for every valid run whose collaborator returns at least one record
and whose records are all dated within the window of `nb_days` days
starting at `start_date`, every record is retained, the report file is
written, the histogram has one count line per day of the window in
chronological order — the count being the number of records dated that
calendar day, zero for days absent from the table — and the counts over
the window sum to the number of records. -/
theorem main_full_window_report (args : Args) (now : Int) (results : List Result)
    (h1 : 0 < args.nb_days) (h2 : args.nb_days < 367)
    (h3 : args.path_output_exists = false) (hne : results ≠ [])
    (hwin : ∀ r ∈ results,
      start_date now args.nb_days ≤ relevant_date args.include_updates r ∧
      relevant_date args.include_updates r <
        start_date now args.nb_days + args.nb_days * minutesPerDay) :
    (consume args.include_updates (start_date now args.nb_days) results initState).fr.length
      = results.length ∧
    Event.fileWrite (reportDoc args (start_date now args.nb_days)
      (consume args.include_updates (start_date now args.nb_days) results initState))
      ∈ main args now results ∧
    dayLines args.nb_days (start_date now args.nb_days)
      (consume args.include_updates (start_date now args.nb_days) results
        initState).date_to_count
      = (List.range args.nb_days.toNat).map (fun (i : Nat) =>
          "- " ++ toString (dayOf (start_date now args.nb_days) + (i : Int)) ++ ": " ++
          toString (results.countP (fun r =>
            decide (dayOf (relevant_date args.include_updates r)
              = dayOf (start_date now args.nb_days) + (i : Int)))) ++ "\n") ∧
    ((List.range args.nb_days.toNat).map (fun (i : Nat) =>
        results.countP (fun r =>
          decide (dayOf (relevant_date args.include_updates r)
            = dayOf (start_date now args.nb_days) + (i : Int))))).sum = results.length := by
  have hall : ∀ r ∈ results,
      start_date now args.nb_days ≤ relevant_date args.include_updates r :=
    fun r hr => (hwin r hr).1
  have htak : results.takeWhile (kept args.include_updates (start_date now args.nb_days))
      = results := by
    rw [List.takeWhile_eq_self_iff]
    intro x hx
    simp [kept, hall x hx]
  have hfr : (consume args.include_updates (start_date now args.nb_days) results initState).fr
      = results := by
    rw [consume_fr, htak]
    simp [initState]
  have htable : ∀ k, (consume args.include_updates (start_date now args.nb_days) results
      initState).date_to_count k
      = results.countP (fun r =>
          decide (dayOf (relevant_date args.include_updates r) = k)) := by
    intro k
    rw [consume_table, htak]
    simp [initState]
  have hdvd : minutesPerDay ∣ start_date now args.nb_days := by
    unfold start_date
    exact dvd_mul_left minutesPerDay _
  have hcast : ((args.nb_days.toNat : Int)) = args.nb_days := Int.toNat_of_nonneg (by omega)
  have hday : ∀ r ∈ results,
      dayOf (start_date now args.nb_days) ≤ dayOf (relevant_date args.include_updates r) ∧
      dayOf (relevant_date args.include_updates r)
        < dayOf (start_date now args.nb_days) + args.nb_days.toNat := by
    intro r hr
    refine dayOf_window _ _ _ hdvd (hwin r hr).1 ?_
    rw [hcast]
    exact (hwin r hr).2
  refine ⟨?_, ?_, ?_, ?_⟩
  · rw [hfr]
  · rw [main_exhausted_events args now results h1 h2 h3 hne hall]
    simp
  · have hline : ∀ i : Nat,
        dayLine (start_date now args.nb_days)
          (consume args.include_updates (start_date now args.nb_days) results
            initState).date_to_count i
        = "- " ++ toString (dayOf (start_date now args.nb_days) + (i : Int)) ++ ": " ++
          toString (results.countP (fun r =>
            decide (dayOf (relevant_date args.include_updates r)
              = dayOf (start_date now args.nb_days) + (i : Int)))) ++ "\n" := by
      intro i
      simp only [dayLine, dayOf_add_mul, htable]
    have hfun : dayLine (start_date now args.nb_days)
        (consume args.include_updates (start_date now args.nb_days) results
          initState).date_to_count
        = fun (i : Nat) =>
          "- " ++ toString (dayOf (start_date now args.nb_days) + (i : Int)) ++ ": " ++
          toString (results.countP (fun r =>
            decide (dayOf (relevant_date args.include_updates r)
              = dayOf (start_date now args.nb_days) + (i : Int)))) ++ "\n" :=
      funext hline
    unfold dayLines
    rw [hfun]
  · exact countP_window_sum args.nb_days.toNat (dayOf (start_date now args.nb_days))
      args.include_updates results hday

/-- A sample in-window record (published on calendar day 67). -/
def wA : Result :=
  ⟨"A", "idA", 97000, 97000, ["x"], none, none, none, "cs.CL", ["cs.CL"], [], "a"⟩

/-- A sample in-window record (published on calendar day 68). -/
def wB : Result :=
  ⟨"B", "idB", 99000, 99000, ["y"], none, none, none, "cs.CL", ["cs.CL"], [], "b"⟩

/-- C2 witness: two records inside a two-day window ending at `now = 100000`
are both retained; the histogram lists both days in order and its counts
sum to two. -/
theorem main_full_window_report_witness :
    (0 : Int) < 2 ∧ (2 : Int) < 367 ∧ ([wB, wA] ≠ ([] : List Result)) ∧
    (∀ r ∈ [wB, wA],
      start_date 100000 2 ≤ relevant_date false r ∧
      relevant_date false r < start_date 100000 2 + 2 * minutesPerDay) ∧
    ((consume false (start_date 100000 2) [wB, wA] initState).fr.length
        = ([wB, wA] : List Result).length ∧
     Event.fileWrite (reportDoc ⟨2, false, ["cs.CL"], false⟩ (start_date 100000 2)
       (consume false (start_date 100000 2) [wB, wA] initState))
       ∈ main ⟨2, false, ["cs.CL"], false⟩ 100000 [wB, wA] ∧
     dayLines 2 (start_date 100000 2)
       (consume false (start_date 100000 2) [wB, wA] initState).date_to_count
       = (List.range (2 : Int).toNat).map (fun (i : Nat) =>
           "- " ++ toString (dayOf (start_date 100000 2) + (i : Int)) ++ ": " ++
           toString (([wB, wA] : List Result).countP (fun r =>
             decide (dayOf (relevant_date false r)
               = dayOf (start_date 100000 2) + (i : Int)))) ++ "\n") ∧
     ((List.range (2 : Int).toNat).map (fun (i : Nat) =>
         ([wB, wA] : List Result).countP (fun r =>
           decide (dayOf (relevant_date false r)
             = dayOf (start_date 100000 2) + (i : Int))))).sum
       = ([wB, wA] : List Result).length) :=
  ⟨by decide, by decide, by decide, by decide,
    main_full_window_report ⟨2, false, ["cs.CL"], false⟩ 100000 [wB, wA]
      (by decide) (by decide) rfl (by decide) (by decide)⟩

end ScrapeArxiv
